import Mathlib

/-!
Verification of the embeddings-service of this repository
(src/embeddings-service/main.py).

The repository source is a thin HTTP wrapper: a health route and an
embed route that delegates to an external embedding library.  The
wrapper logic (the two route handler bodies, the response shapes and
the constant model identifier) is embedded here directly from the
source.  The embedding model itself (the sentence_transformers
library) and the JSON body validation (pydantic / FastAPI) are not
part of the repository source; they are modelled from the contract the
spec states for them, in definitions whose doc comments say so
explicitly.  Numeric vector components are modelled as rationals.
-/

/-- Sum of squares of the components of a vector; the square of its
L2 norm. -/
def sumSq (v : List ℚ) : ℚ :=
  (v.map fun x => x * x).sum

/-- Embedded from src/embeddings-service/main.py line 8: the constant
model identifier string. -/
def MODEL_NAME : String := "sentence-transformers/all-MiniLM-L6-v2"

/-- Embedded from src/embeddings-service/main.py lines 11-12: the
request body holds a list of strings. -/
structure EmbedRequest where
  texts : List String
deriving DecidableEq, Repr

/-- Embedded from src/embeddings-service/main.py lines 14-17: the
response body holds the model identifier, the reported dimensionality
and the list of vectors. -/
structure EmbedResponse where
  model : String
  dim : Nat
  vectors : List (List ℚ)
deriving DecidableEq, Repr

/-- Modelled from the spec (section 4.1): the Model Provider contract.
The sentence_transformers library is not part of the repository
source, so the provider is modelled from the contract the spec gives
it: encode takes a normalization flag and a sequence of strings and
returns one vector per input text in the same order (captured below by
mapping a per-text function, which also captures determinism for
identical inputs); every vector has the same fixed dimensionality D
determined by the model, not by the input; with normalization enabled
every vector has unit L2 norm up to a floating-point tolerance,
modelled as the sum of squares lying within tol of 1. -/
structure ModelProvider where
  encode1 : Bool → String → List ℚ
  D : Nat
  tol : ℚ
  dim_fixed : ∀ b s, (encode1 b s).length = D
  norm_one : ∀ s, |sumSq (encode1 true s) - 1| ≤ tol

/-- Modelled from the spec (section 4.1): batch encode is one vector
per input text, in input order. -/
def ModelProvider.encode (P : ModelProvider) (normalize : Bool)
    (texts : List String) : List (List ℚ) :=
  texts.map (P.encode1 normalize)

/-- Embedded from src/embeddings-service/main.py lines 26-30: the
response dictionary built by the embed handler from the list of
vectors returned by encode.  The dim field is the Python expression
len(vectors[0]) if vectors else 0. -/
def mkEmbedResponse (vectors : List (List ℚ)) : EmbedResponse :=
  { model := MODEL_NAME
    dim := match vectors with
      | [] => 0
      | v :: _ => v.length
    vectors := vectors }

/-- Embedded from src/embeddings-service/main.py lines 23-30: the embed
handler body over an arbitrary encoding backend (the backend is a
parameter so that properties of the handler code alone can be stated
without assuming anything about the library). -/
def embedWith (enc : List String → List (List ℚ))
    (texts : List String) : EmbedResponse :=
  mkEmbedResponse (enc texts)

/-- Embedded from src/embeddings-service/main.py lines 23-30: the embed
handler calls encode with normalize_embeddings set to true and wraps
the result. -/
def embed (P : ModelProvider) (req : EmbedRequest) : EmbedResponse :=
  embedWith (P.encode true) req.texts

/-- Embedded from src/embeddings-service/main.py lines 19-21: the
health handler response body. -/
structure HealthResponse where
  status : String
  model : String
deriving DecidableEq, Repr

/-- Embedded from src/embeddings-service/main.py lines 19-21: the
health handler returns a fixed status and the model identifier. -/
def health : HealthResponse :=
  { status := "ok", model := MODEL_NAME }

/-- Modelled from the spec (section 6): FastAPI, which is not part of
the repository source, answers a handler that returns normally with
HTTP status 200; the health route therefore pairs status 200 with the
health body. -/
def healthRoute : Nat × HealthResponse :=
  (200, health)

/-- Embedded from src/embeddings-service/main.py line 28, with the
Python semantics of indexing made explicit: vectors[0] raises (here:
none) when the list is empty, and the conditional guards that access,
so the dim expression is len(vectors[0]) if vectors else 0. -/
def dimExpr (vectors : List (List ℚ)) : Option Nat :=
  if vectors.isEmpty then some 0
  else (vectors[0]?).map List.length

/-- Embedded from src/embeddings-service/main.py lines 23-30 at the
level of possibly-failing Python evaluation: the handler result is
none exactly when some list access in its body is out of bounds. -/
def embedChecked (enc : List String → List (List ℚ))
    (texts : List String) : Option EmbedResponse :=
  (dimExpr (enc texts)).map fun d =>
    { model := MODEL_NAME, dim := d, vectors := enc texts }

/-- JSON values, for modelling request bodies that reach validation. -/
inductive Json where
  | null : Json
  | bool : Bool → Json
  | num : ℚ → Json
  | str : String → Json
  | arr : List Json → Json
  | obj : List (String × Json) → Json

/-- Lookup of a field in an association list of JSON object fields. -/
def lookupFields : List (String × Json) → String → Option Json
  | [], _ => none
  | (k, v) :: rest, key => if k = key then some v else lookupFields rest key

/-- Lookup of a field of a JSON value; none on non-objects. -/
def Json.lookup : Json → String → Option Json
  | .obj fs, key => lookupFields fs key
  | _, _ => none

/-- Whether a JSON value is a string. -/
def Json.isStr : Json → Bool
  | .str _ => true
  | _ => false

/-- Modelled from the spec (section 4.2): element-wise validation that
every member of the texts array is a string; pydantic is not part of
the repository source.  The first non-string element yields a
descriptive error. -/
def validateTexts : List Json → Except String (List String)
  | [] => .ok []
  | .str s :: rest => (validateTexts rest).map fun l => s :: l
  | _ :: _ => .error "texts elements must be strings"

/-- Modelled from the spec (section 4.2): validation of the request
body against EmbedRequest; pydantic / FastAPI are not part of the
repository source.  Reject with a descriptive error when the texts
field is missing, not an array, or contains a non-string element. -/
def validateEmbedRequest (body : Json) : Except String EmbedRequest :=
  match body.lookup ("texts") with
  | none => .error "field texts is required"
  | some (.arr xs) => (validateTexts xs).map EmbedRequest.mk
  | some _ => .error "texts must be an array"

/-- Outcome of one embed request as seen by the client. -/
inductive HttpResult where
  | ok : EmbedResponse → HttpResult
  | clientError : String → HttpResult
  | serverError : String → HttpResult
deriving DecidableEq, Repr

/-- Modelled from the spec (sections 4.2, 7): the full embed route.
Validation failure is surfaced as a client error; an unexpected
failure inside encode (the backend here returns an Except) is caught
by the framework, which is not part of the repository source, and
surfaced as a server error; a normal encode result is wrapped by the
handler body embedded in mkEmbedResponse.  The route is a total
function: every request produces a structured result, never a crash. -/
def handleEmbed (enc : List String → Except String (List (List ℚ)))
    (body : Json) : HttpResult :=
  match validateEmbedRequest body with
  | .error msg => .clientError msg
  | .ok req =>
    match enc req.texts with
    | .error msg => .serverError msg
    | .ok vectors => .ok (mkEmbedResponse vectors)

/-- Whether a request body is malformed in one of the three ways the
spec names: texts field missing, texts not an array, or texts holding
a non-string element. -/
def isMalformedTexts (body : Json) : Bool :=
  match body.lookup ("texts") with
  | none => true
  | some (.arr xs) => xs.any fun j => !j.isStr
  | some _ => true

/-- Concrete provider used to instantiate theorems about arbitrary
providers: every text is sent to the one-component unit vector. -/
def constProvider : ModelProvider where
  encode1 := fun _ _ => [1]
  D := 1
  tol := 0
  dim_fixed := by intro b s; rfl
  norm_one := by intro s; simp [sumSq]

/-- Whether an embed route outcome is a client error carrying a
non-empty (descriptive) message. -/
def HttpResult.isClientError : HttpResult → Bool
  | .clientError msg => msg != ""
  | _ => false

/-- Every vector produced by the provider over a batch has the fixed
length D. -/
theorem length_of_mem_encode (P : ModelProvider) (b : Bool)
    (texts : List String) (v : List ℚ) (hv : v ∈ P.encode b texts) :
    v.length = P.D := by
  obtain ⟨s, hs, rfl⟩ := List.mem_map.mp hv
  exact P.dim_fixed b s

/-- The reported dimensionality on a non-empty batch is the fixed
model dimensionality D. -/
theorem embed_dim_eq_D (P : ModelProvider) (t : String) (ts : List String) :
    (embed P ⟨t :: ts⟩).dim = P.D :=
  P.dim_fixed true t

/-- A non-string element anywhere in the array makes element
validation fail with a descriptive message. -/
theorem validateTexts_error_of_any (xs : List Json)
    (h : xs.any (fun j => !j.isStr) = true) :
    validateTexts xs = .error "texts elements must be strings" := by
  induction xs with
  | nil => simp at h
  | cons a rest ih =>
    cases a with
    | str s =>
      simp only [List.any_cons, Json.isStr, Bool.not_true, Bool.false_or] at h
      simp [validateTexts, ih h, Except.map]
    | null => rfl
    | bool b => rfl
    | num q => rfl
    | arr ys => rfl
    | obj fs => rfl

/-- A validation error is answered by the route with a client error
carrying the same message. -/
theorem handleEmbed_of_validate_error
    (enc : List String → Except String (List (List ℚ))) (body : Json)
    (msg : String) (h : validateEmbedRequest body = .error msg) :
    handleEmbed enc body = .clientError msg := by
  unfold handleEmbed
  rw [h]

/-- A validated request is answered by the route from the backend
outcome alone. -/
theorem handleEmbed_of_validate_ok
    (enc : List String → Except String (List (List ℚ))) (body : Json)
    (req : EmbedRequest) (h : validateEmbedRequest body = .ok req) :
    handleEmbed enc body = match enc req.texts with
      | .error msg => .serverError msg
      | .ok vectors => .ok (mkEmbedResponse vectors) := by
  unfold handleEmbed
  rw [h]

/-- C1: for every valid request whose texts is a list of n strings,
the embed response contains exactly n vectors, one per input text in
input order, and every returned vector has length equal to the
response dim field. -/
theorem embed_shape (P : ModelProvider) (texts : List String) :
    (embed P ⟨texts⟩).vectors.length = texts.length ∧
    ∀ v ∈ (embed P ⟨texts⟩).vectors, v.length = (embed P ⟨texts⟩).dim := by
  constructor
  · exact List.length_map texts (P.encode1 true)
  · intro v hv
    have hD : v.length = P.D := length_of_mem_encode P true texts v hv
    cases texts with
    | nil =>
      exact absurd hv (by
        simp [embed, embedWith, mkEmbedResponse, ModelProvider.encode])
    | cons t ts => rw [hD, embed_dim_eq_D]

/-- Witness for C1 at the concrete provider and texts of length 2. -/
theorem embed_shape_witness :
    (embed constProvider ⟨["a", "b"]⟩).vectors.length = (["a", "b"] : List String).length ∧
    [(1 : ℚ)].length = (embed constProvider ⟨["a", "b"]⟩).dim :=
  ⟨(embed_shape constProvider ["a", "b"]).1,
   (embed_shape constProvider ["a", "b"]).2 [(1 : ℚ)] (by decide)⟩

/-- C2: calling embed with an empty texts list returns the model
identifier, dim 0 and an empty vectors list. -/
theorem embed_empty (P : ModelProvider) :
    embed P ⟨[]⟩ = { model := MODEL_NAME, dim := 0, vectors := [] } :=
  rfl

/-- C3: a request body whose texts field is missing, not an array, or
contains a non-string element is answered with a client error carrying
a descriptive message; the route is a total function, so the process
does not crash. -/
theorem embed_malformed_client_error
    (enc : List String → Except String (List (List ℚ))) (body : Json)
    (h : isMalformedTexts body = true) :
    (handleEmbed enc body).isClientError = true := by
  unfold isMalformedTexts at h
  cases hl : body.lookup ("texts") with
  | none =>
    rw [handleEmbed_of_validate_error enc body "field texts is required"
      (by unfold validateEmbedRequest; rw [hl])]
    rfl
  | some t =>
    rw [hl] at h
    cases t with
    | arr xs =>
      have h2 : xs.any (fun j => !j.isStr) = true := h
      have hval : validateEmbedRequest body =
          .error "texts elements must be strings" := by
        unfold validateEmbedRequest
        rw [hl]
        show Except.map EmbedRequest.mk (validateTexts xs) =
          .error "texts elements must be strings"
        rw [validateTexts_error_of_any xs h2]
        rfl
      rw [handleEmbed_of_validate_error enc body
        "texts elements must be strings" hval]
      rfl
    | null =>
      rw [handleEmbed_of_validate_error enc body "texts must be an array"
        (by unfold validateEmbedRequest; rw [hl])]
      rfl
    | bool b =>
      rw [handleEmbed_of_validate_error enc body "texts must be an array"
        (by unfold validateEmbedRequest; rw [hl])]
      rfl
    | num q =>
      rw [handleEmbed_of_validate_error enc body "texts must be an array"
        (by unfold validateEmbedRequest; rw [hl])]
      rfl
    | str s =>
      rw [handleEmbed_of_validate_error enc body "texts must be an array"
        (by unfold validateEmbedRequest; rw [hl])]
      rfl
    | obj fs =>
      rw [handleEmbed_of_validate_error enc body "texts must be an array"
        (by unfold validateEmbedRequest; rw [hl])]
      rfl

/-- Witness for C3 at the concrete malformed body whose texts field is
a string rather than an array. -/
theorem embed_malformed_client_error_witness :
    isMalformedTexts (Json.obj [("texts", Json.str "not-a-list")]) = true ∧
    (handleEmbed (fun _ => .ok [])
      (Json.obj [("texts", Json.str "not-a-list")])).isClientError = true :=
  ⟨rfl, embed_malformed_client_error (fun _ => .ok [])
    (Json.obj [("texts", Json.str "not-a-list")]) rfl⟩

/-- C4: the health route of a successfully started process answers
with status 200 and a body whose status field is ok and whose model
field is the configured model identifier; it takes no input. -/
theorem health_ok :
    healthRoute = (200, { status := "ok", model := MODEL_NAME }) :=
  rfl

/-- C5: the dim field of the embed response on any non-empty input is
the fixed model dimensionality D, independent of the input texts, so
it is the same constant across all calls within one process. -/
theorem embed_dim_const (P : ModelProvider) (texts : List String)
    (h : texts ≠ []) :
    (embed P ⟨texts⟩).dim = P.D := by
  cases texts with
  | nil => exact absurd rfl h
  | cons t ts => exact embed_dim_eq_D P t ts

/-- Witness for C5 at the concrete provider and a singleton input. -/
theorem embed_dim_const_witness :
    (["a"] : List String) ≠ [] ∧
    (embed constProvider ⟨["a"]⟩).dim = constProvider.D :=
  ⟨by decide, embed_dim_const constProvider ["a"] (by decide)⟩

/-- C6: positions of the input holding equal strings receive
element-wise equal vectors in the embed response within one call. -/
theorem embed_equal_inputs (P : ModelProvider) (texts : List String)
    (i j : Nat) (h : texts[i]? = texts[j]?) :
    (embed P ⟨texts⟩).vectors[i]? = (embed P ⟨texts⟩).vectors[j]? := by
  show (texts.map (P.encode1 true))[i]? = (texts.map (P.encode1 true))[j]?
  rw [List.getElem?_map, List.getElem?_map, h]

/-- Witness for C6 at the concrete input with two equal strings. -/
theorem embed_equal_inputs_witness :
    ((["a", "a"] : List String)[0]? = (["a", "a"] : List String)[1]?) ∧
    (embed constProvider ⟨["a", "a"]⟩).vectors[0]? =
      (embed constProvider ⟨["a", "a"]⟩).vectors[1]? :=
  ⟨rfl, embed_equal_inputs constProvider ["a", "a"] 0 1 rfl⟩

/-- C7: every vector of an embed response has its sum of squares (the
squared L2 norm) within the provider tolerance of 1, because the
handler invokes encode with normalization enabled; in this rational
embedding every component is a finite number by construction. -/
theorem embed_norm_one (P : ModelProvider) (texts : List String)
    (v : List ℚ) (hv : v ∈ (embed P ⟨texts⟩).vectors) :
    |sumSq v - 1| ≤ P.tol := by
  obtain ⟨s, hs, rfl⟩ := List.mem_map.mp hv
  exact P.norm_one s

/-- Witness for C7 at the concrete provider and a singleton input. -/
theorem embed_norm_one_witness :
    [(1 : ℚ)] ∈ (embed constProvider ⟨["hello"]⟩).vectors ∧
    |sumSq [(1 : ℚ)] - 1| ≤ constProvider.tol :=
  ⟨by decide, embed_norm_one constProvider ["hello"] [(1 : ℚ)] (by decide)⟩

/-- C8: when validation succeeds and the encode backend fails with an
unexpected error, the embed route surfaces a server error carrying
that message; the route is a total function over any backend outcome,
so the process neither crashes nor corrupts state. -/
theorem embed_encode_failure
    (enc : List String → Except String (List (List ℚ))) (body : Json)
    (req : EmbedRequest) (msg : String)
    (hv : validateEmbedRequest body = .ok req)
    (he : enc req.texts = .error msg) :
    handleEmbed enc body = .serverError msg := by
  rw [handleEmbed_of_validate_ok enc body req hv, he]

/-- Witness for C8 at a concrete well-formed body and a backend that
always fails. -/
theorem embed_encode_failure_witness :
    validateEmbedRequest (Json.obj [("texts", Json.arr [Json.str "hello"])]) =
      .ok ⟨["hello"]⟩ ∧
    (fun _ : List String =>
      (.error "boom" : Except String (List (List ℚ)))) ["hello"] =
      .error "boom" ∧
    handleEmbed (fun _ => .error "boom")
      (Json.obj [("texts", Json.arr [Json.str "hello"])]) =
      .serverError "boom" :=
  ⟨rfl, rfl,
   embed_encode_failure (fun _ => .error "boom")
     (Json.obj [("texts", Json.arr [Json.str "hello"])])
     ⟨["hello"]⟩ "boom" rfl rfl⟩

/-- C9: the handler body with Python partial indexing made explicit
never takes the none branch: the access vectors[0] is guarded by the
emptiness conditional, so the handler is total over every list of
strings and every backend, and agrees with the unchecked handler. -/
theorem embedChecked_total (enc : List String → List (List ℚ))
    (texts : List String) :
    embedChecked enc texts = some (embedWith enc texts) := by
  unfold embedChecked embedWith mkEmbedResponse dimExpr
  cases h : enc texts with
  | nil => simp [h]
  | cons v vs => simp [h]

/-- C10: for any backend and any input on which the backend returns a
non-empty list of vectors, the dim field of the embed response equals
the length of the first returned vector, with no condition relating
the remaining vectors to dim. -/
theorem embed_dim_first (enc : List String → List (List ℚ))
    (texts : List String) (v : List ℚ) (vs : List (List ℚ))
    (h : enc texts = v :: vs) :
    (embedWith enc texts).dim = v.length := by
  simp [embedWith, mkEmbedResponse, h]

/-- Witness for C10 at a backend returning vectors of unequal lengths:
dim is the length of the first vector even though the second vector
has a different length. -/
theorem embed_dim_first_witness :
    (fun _ : List String => [[(1 : ℚ)], [1, 2]]) ["a"] =
      [(1 : ℚ)] :: [[(1 : ℚ), 2]] ∧
    (embedWith (fun _ : List String => [[(1 : ℚ)], [1, 2]]) ["a"]).dim =
      [(1 : ℚ)].length :=
  ⟨rfl, embed_dim_first (fun _ => [[(1 : ℚ)], [1, 2]]) ["a"]
    [(1 : ℚ)] [[(1 : ℚ), 2]] rfl⟩
